import Mathlib

/-!
Verification of the hardware configuration module of an STM32F303RE
Nucleo blink program (`src/config.rs`).

The module consists of static configuration data (a blink-interval
constant and two pre-formatted UART message byte strings) and a single
routine `Hardware::init` that consumes the one-time `Peripherals` token
of the `embassy_stm32` framework, configures USART2 (TX on PA2, default
configuration, no DMA) and GPIO PA5 (push-pull output, initially LOW,
low speed), and packages the two handles into a `Hardware` bundle.

The embedding translates `Hardware::init` into a pure function that
returns both its result (`Except`, where `Except.error` models the
fatal panic raised by the `.unwrap()` on UART creation) and a trace of
the peripheral-configuration actions it performed, so that ordering and
frame properties are provable.  The fallibility of the framework's UART
configuration request is modelled as a field of the `Peripherals`
token (the framework's response to the single USART2 configuration
request made by `init`), matching the fault-injection scenario of the
specification.
-/

namespace Stm32Blink

/-- LED blink interval in milliseconds.  Source: `pub const
LED_BLINK_INTERVAL_MS: u64 = 500;`.  The Rust value has type `u64`;
its value 500 is far below `2^64`, so a plain `Nat` is faithful. -/
def LED_BLINK_INTERVAL_MS : Nat := 500

/-- ASCII byte string of a Rust byte-string literal `b"..."`: the
code point of each character.  All characters used are ASCII, so each
entry is the byte the Rust literal contains. -/
def asciiBytes (s : String) : List Nat := s.data.map Char.toNat

namespace messages

/-- Source: `pub const LED_ON: &[u8] = b"LED ON\r\n";`. -/
def LED_ON : List Nat := asciiBytes "LED ON\r\n"

/-- Source: `pub const LED_OFF: &[u8] = b"LED OFF\r\n";`. -/
def LED_OFF : List Nat := asciiBytes "LED OFF\r\n"

end messages

/-- Identifiers of the on-chip peripheral singletons relevant to this
module (the three used by `Hardware::init` plus neighbouring ones, so
that frame statements are not vacuous). -/
inductive PeripheralId
  | USART1
  | USART2
  | USART3
  | PA0
  | PA1
  | PA2
  | PA3
  | PA4
  | PA5
  | PA6
  | PB0
  | PB1
deriving DecidableEq, Repr

/-- GPIO logical level (`embassy_stm32::gpio::Level`). -/
inductive Level
  | low
  | high
deriving DecidableEq, Repr

/-- GPIO output speed / slew rate (`embassy_stm32::gpio::Speed`). -/
inductive Speed
  | low
  | medium
  | high
  | veryHigh
deriving DecidableEq, Repr

/-- GPIO output drive mode.  The framework's `Output` type is the
push-pull variant; the open-drain variant is a distinct type, kept
here as a second constructor so that push-pull configuration is a
provable fact rather than a vacuity of the embedding. -/
inductive OutputMode
  | pushPull
  | openDrain
deriving DecidableEq, Repr

/-- UART parity setting. -/
inductive Parity
  | parityNone
  | parityEven
  | parityOdd
deriving DecidableEq, Repr

/-- UART stop-bit setting. -/
inductive StopBits
  | one
  | half
  | oneAndHalf
  | two
deriving DecidableEq, Repr

/-- UART data-bit setting. -/
inductive DataBits
  | eight
  | nine
deriving DecidableEq, Repr

/-- UART configuration record (`embassy_stm32::usart::Config`). -/
structure UsartConfig where
  baudrate : Nat
  dataBits : DataBits
  parity : Parity
  stopBits : StopBits
deriving DecidableEq, Repr

/-- Default UART configuration.  Embeds the external framework's
`embassy_stm32::usart::Config::default()` by its documented defaults —
115200 baud, 8 data bits, no parity, 1 stop bit — which the source
comment at the call site (`src/config.rs` line 79) also records. -/
def UsartConfig.default : UsartConfig :=
  { baudrate := 115200
    dataBits := DataBits.eight
    parity := Parity.parityNone
    stopBits := StopBits.one }

/-- DMA assist option for the UART driver; the source passes
`embassy_stm32::dma::NoDma`.  A channel constructor keeps the absence
of DMA a provable fact. -/
inductive DmaOption
  | noDma
  | channel (id : Nat)
deriving DecidableEq, Repr

/-- Error kind with which the framework can reject a UART
configuration request (`embassy_stm32::usart::ConfigError`). -/
inductive ConfigError
  | baudrateTooLow
  | baudrateTooHigh
deriving DecidableEq, Repr

/-- The one-time peripheral-access token (`embassy_stm32::Peripherals`).
Its single field records the framework's response to the one USART2
configuration request `init` makes: `none` means the request is
accepted, `some e` means it is rejected with error `e` (the
fault-injection point of the specification's test scenario). -/
structure Peripherals where
  uartConfigError : Option ConfigError
deriving DecidableEq, Repr

/-- A configured UART transmitter handle
(`UartTx<'static, USART2, NoDma>`): the claimed USART instance, its TX
pin, the DMA option and the configuration it was created with. -/
structure UartTxHandle where
  usart : PeripheralId
  txPin : PeripheralId
  dma : DmaOption
  config : UsartConfig
deriving DecidableEq, Repr

/-- A configured GPIO output handle (`Output<'static, PA5>`): the
claimed pin, its drive mode, its initial logical level and its
speed. -/
structure OutputPin where
  pin : PeripheralId
  mode : OutputMode
  level : Level
  speed : Speed
deriving DecidableEq, Repr

/-- One peripheral-configuration action performed against the
hardware, as recorded in the trace of `Hardware.init`. -/
inductive Action
  | uartNew (usart txPin : PeripheralId) (dma : DmaOption) (cfg : UsartConfig)
  | outputNew (pin : PeripheralId) (lvl : Level) (spd : Speed)
deriving DecidableEq, Repr

/-- Peripherals a single action takes out of the token and
configures. -/
def Action.touched : Action → List PeripheralId
  | Action.uartNew u t _ _ => [u, t]
  | Action.outputNew p _ _ => [p]

/-- All peripherals a trace of actions touches, in order. -/
def touchedPeripherals (t : List Action) : List PeripheralId :=
  t.foldr (fun a acc => a.touched ++ acc) []

/-- Whether a trace contains any GPIO-output configuration action. -/
def gpioTouched (t : List Action) : Bool :=
  t.any fun a =>
    match a with
    | Action.outputNew _ _ _ => true
    | _ => false

/-- Framework operation `UartTx::new(usart, tx_pin, dma, config)`:
requests configuration of the transmit channel; the framework may
reject the request, in which case no handle is produced. -/
def UartTx.new (p : Peripherals) (usart txPin : PeripheralId)
    (dma : DmaOption) (cfg : UsartConfig) : Except ConfigError UartTxHandle :=
  match p.uartConfigError with
  | some e => Except.error e
  | none => Except.ok { usart := usart, txPin := txPin, dma := dma, config := cfg }

/-- Framework operation `Output::new(pin, level, speed)`: claims the
pin as a push-pull output at the given initial level and speed.  The
operation is total — the framework offers no error path for it. -/
def Output.new (pin : PeripheralId) (lvl : Level) (spd : Speed) : OutputPin :=
  { pin := pin, mode := OutputMode.pushPull, level := lvl, speed := spd }

/-- The hardware bundle (`pub struct Hardware`): the LED output handle
on PA5 and the USART2 transmitter handle. -/
structure Hardware where
  led : OutputPin
  usart : UartTxHandle
deriving DecidableEq, Repr

/-- Embedding of `Hardware::init(p)` (`src/config.rs` lines 77–89).
First component: `Except.ok hw` when the function returns the bundle
`hw`, `Except.error e` when the `.unwrap()` on the UART creation
panics with the framework's rejection `e` (a fatal abort — the caller
observes no value).  Second component: the trace of configuration
actions performed, in order, up to the point of return or panic. -/
def Hardware.init (p : Peripherals) : Except ConfigError Hardware × List Action :=
  let uart_config := UsartConfig.default
  match UartTx.new p PeripheralId.USART2 PeripheralId.PA2 DmaOption.noDma uart_config with
  | Except.error e =>
      (Except.error e,
        [Action.uartNew PeripheralId.USART2 PeripheralId.PA2 DmaOption.noDma uart_config])
  | Except.ok usart =>
      let led := Output.new PeripheralId.PA5 Level.low Speed.low
      (Except.ok { led := led, usart := usart },
        [Action.uartNew PeripheralId.USART2 PeripheralId.PA2 DmaOption.noDma uart_config,
         Action.outputNew PeripheralId.PA5 Level.low Speed.low])

/-- Whether `Hardware::init` returns a bundle to its caller (rather
than aborting the process by panic). -/
def initReturnsBundle (p : Peripherals) : Bool :=
  match (Hardware.init p).1 with
  | Except.ok _ => true
  | Except.error _ => false

/-- The unique bundle value any successful `Hardware::init` returns. -/
def configuredBundle : Hardware :=
  { led := Output.new PeripheralId.PA5 Level.low Speed.low
    usart :=
      { usart := PeripheralId.USART2
        txPin := PeripheralId.PA2
        dma := DmaOption.noDma
        config := UsartConfig.default } }

/-- Construction paths for `Hardware` that the source's visibility
rules actually permit.  A bundle arises either from a successful
`Hardware::init` call, or — because both fields of
`pub struct Hardware` are declared `pub` (`src/config.rs` lines
48–55), with no private field and no exhaustiveness restriction — from
a struct-literal expression written in any other module from
separately obtained handles.  The source
declares no `Default` implementation and no producer function other
than `init`. -/
inductive Hardware.Constructible : Hardware → Prop
  | ofInit (p : Peripherals) (hw : Hardware) :
      (Hardware.init p).1 = Except.ok hw → Hardware.Constructible hw
  | structLiteral (led : OutputPin) (usart : UartTxHandle) :
      Hardware.Constructible { led := led, usart := usart }

/-- A bundle built by the struct-literal path that the public fields
of `Hardware` permit: its LED handle starts at level HIGH, a state no
`Hardware::init` call ever produces. -/
def literalBundle : Hardware :=
  { led := Output.new PeripheralId.PA5 Level.high Speed.low
    usart :=
      { usart := PeripheralId.USART2
        txPin := PeripheralId.PA2
        dma := DmaOption.noDma
        config := UsartConfig.default } }

end Stm32Blink

namespace Stm32Blink

/-- C1: if the serial (UART) configuration step of `Hardware::init`
fails, the initializer aborts by fatal panic carrying the framework's
error, and returns no bundle: no `Hardware` value is observable by the
caller. -/
theorem init_uart_failure_aborts_no_bundle (p : Peripherals) (e : ConfigError)
    (h : p.uartConfigError = some e) :
    (Hardware.init p).1 = Except.error e ∧ initReturnsBundle p = false := by
  constructor
  · simp [Hardware.init, UartTx.new, h]
  · simp [initReturnsBundle, Hardware.init, UartTx.new, h]

/-- Witness for C1 at a concrete rejected token. -/
theorem init_uart_failure_aborts_no_bundle_witness :
    (Hardware.init { uartConfigError := some ConfigError.baudrateTooHigh }).1 =
        Except.error ConfigError.baudrateTooHigh ∧
      initReturnsBundle { uartConfigError := some ConfigError.baudrateTooHigh } = false :=
  init_uart_failure_aborts_no_bundle
    { uartConfigError := some ConfigError.baudrateTooHigh }
    ConfigError.baudrateTooHigh rfl

/-- C2: every bundle returned by a successful `Hardware::init` holds a
serial transmitter handle configured with baud rate 115200, 8 data
bits, no parity, 1 stop bit, and no DMA assist (the code passes the
framework's default configuration, which equals 115200-8N1, and
`NoDma`). -/
theorem init_usart_config_115200_8N1_noDma (p : Peripherals) (hw : Hardware)
    (h : (Hardware.init p).1 = Except.ok hw) :
    hw.usart.config.baudrate = 115200 ∧
      hw.usart.config.dataBits = DataBits.eight ∧
      hw.usart.config.parity = Parity.parityNone ∧
      hw.usart.config.stopBits = StopBits.one ∧
      hw.usart.dma = DmaOption.noDma := by
  cases hp : p.uartConfigError with
  | some e => simp [Hardware.init, UartTx.new, hp] at h
  | none =>
      simp [Hardware.init, UartTx.new, hp] at h
      subst h
      exact ⟨rfl, rfl, rfl, rfl, rfl⟩

/-- Witness for C2 at a concrete accepted token. -/
theorem init_usart_config_115200_8N1_noDma_witness :
    configuredBundle.usart.config.baudrate = 115200 ∧
      configuredBundle.usart.config.dataBits = DataBits.eight ∧
      configuredBundle.usart.config.parity = Parity.parityNone ∧
      configuredBundle.usart.config.stopBits = StopBits.one ∧
      configuredBundle.usart.dma = DmaOption.noDma :=
  init_usart_config_115200_8N1_noDma { uartConfigError := none } configuredBundle rfl

/-- C3: every bundle returned by a successful `Hardware::init` holds
an LED output handle configured as a push-pull output with initial
logical state LOW and low speed (slew rate / drive strength). -/
theorem init_led_pushPull_low_lowSpeed (p : Peripherals) (hw : Hardware)
    (h : (Hardware.init p).1 = Except.ok hw) :
    hw.led.mode = OutputMode.pushPull ∧
      hw.led.level = Level.low ∧
      hw.led.speed = Speed.low := by
  cases hp : p.uartConfigError with
  | some e => simp [Hardware.init, UartTx.new, hp] at h
  | none =>
      simp [Hardware.init, UartTx.new, hp] at h
      subst h
      exact ⟨rfl, rfl, rfl⟩

/-- Witness for C3 at a concrete accepted token. -/
theorem init_led_pushPull_low_lowSpeed_witness :
    configuredBundle.led.mode = OutputMode.pushPull ∧
      configuredBundle.led.level = Level.low ∧
      configuredBundle.led.speed = Speed.low :=
  init_led_pushPull_low_lowSpeed { uartConfigError := none } configuredBundle rfl

/-- C4: the "LED ON" message is exactly the 8 bytes `LED ON\r\n` and
the "LED OFF" message exactly the 9 bytes `LED OFF\r\n`, byte for
byte, ending in CR then LF with no other leading or trailing bytes. -/
theorem messages_exact_bytes :
    messages.LED_ON = [76, 69, 68, 32, 79, 78, 13, 10] ∧
      messages.LED_ON.length = 8 ∧
      messages.LED_OFF = [76, 69, 68, 32, 79, 70, 70, 13, 10] ∧
      messages.LED_OFF.length = 9 := by
  refine ⟨?_, ?_, ?_, ?_⟩ <;> rfl

/-- C5: the blink interval constant equals 500 milliseconds. -/
theorem blink_interval_is_500_ms : LED_BLINK_INTERVAL_MS = 500 := rfl

/-- C6 counterexample: the claim that `Hardware` cannot be
constructed by any path other than `Hardware::init` is false of the
source — both fields of `pub struct Hardware` are `pub`, so a
struct-literal construction from separately obtained handles is
permitted outside `init`, and it can build `literalBundle`, a concrete
bundle (LED initially HIGH) that differs from the unique bundle any
`init` call returns. -/
theorem hardware_struct_literal_refutes_only_init :
    Hardware.Constructible literalBundle ∧ literalBundle ≠ configuredBundle :=
  ⟨Hardware.Constructible.structLiteral literalBundle.led literalBundle.usart,
    by decide⟩

/-- C6 (amended): the `Hardware` type has no default or empty
construction, and `Hardware::init` is the only producer function the
module declares: every bundle a successful `init` returns is the fully
configured bundle, so no bundle with unconfigured peripherals can be
obtained from the module's own producer.  (Struct-literal construction
from separately obtained handles remains possible outside `init`
because both fields are public.) -/
theorem init_only_yields_configured_bundle (p : Peripherals) (hw : Hardware)
    (h : (Hardware.init p).1 = Except.ok hw) : hw = configuredBundle := by
  cases hp : p.uartConfigError with
  | some e => simp [Hardware.init, UartTx.new, hp] at h
  | none =>
      simp [Hardware.init, UartTx.new, hp] at h
      subst h
      rfl

/-- Witness for the amended C6: the bundle produced by `init` on an
accepted token is the configured bundle. -/
theorem init_only_yields_configured_bundle_witness :
    configuredBundle = configuredBundle :=
  init_only_yields_configured_bundle { uartConfigError := none } configuredBundle rfl

/-- C7: a successful `Hardware::init` performs its steps in the
specified order — first the UART configuration of USART2 on PA2 with
the default (115200-8N1) configuration and no DMA, then the GPIO
configuration of PA5 as push-pull output at LOW with low speed — and
packages exactly the two handles so produced into the returned
bundle. -/
theorem init_step_order (p : Peripherals) (hw : Hardware)
    (h : (Hardware.init p).1 = Except.ok hw) :
    (Hardware.init p).2 =
        [Action.uartNew PeripheralId.USART2 PeripheralId.PA2 DmaOption.noDma
            UsartConfig.default,
          Action.outputNew PeripheralId.PA5 Level.low Speed.low] ∧
      hw = configuredBundle := by
  cases hp : p.uartConfigError with
  | some e => simp [Hardware.init, UartTx.new, hp] at h
  | none =>
      constructor
      · simp [Hardware.init, UartTx.new, hp]
      · simp [Hardware.init, UartTx.new, hp] at h
        subst h
        rfl

/-- Witness for C7 at a concrete accepted token. -/
theorem init_step_order_witness :
    (Hardware.init { uartConfigError := none }).2 =
        [Action.uartNew PeripheralId.USART2 PeripheralId.PA2 DmaOption.noDma
            UsartConfig.default,
          Action.outputNew PeripheralId.PA5 Level.low Speed.low] ∧
      configuredBundle = configuredBundle :=
  init_step_order { uartConfigError := none } configuredBundle rfl

/-- C8: the GPIO configuration step has no error path: whenever the
framework accepts the serial configuration request, `Hardware::init`
returns a bundle without any further failure. -/
theorem init_gpio_never_fails (p : Peripherals)
    (h : p.uartConfigError = none) :
    (Hardware.init p).1 = Except.ok configuredBundle := by
  simp [Hardware.init, UartTx.new, h, configuredBundle]

/-- Witness for C8 at a concrete accepted token. -/
theorem init_gpio_never_fails_witness :
    (Hardware.init { uartConfigError := none }).1 = Except.ok configuredBundle :=
  init_gpio_never_fails { uartConfigError := none } rfl

/-- C9: when the serial configuration step fails, the panic occurs
before the GPIO line is touched: the trace of the failing run contains
no GPIO-output configuration action and never touches PA5. -/
theorem init_failure_gpio_untouched (p : Peripherals) (e : ConfigError)
    (h : p.uartConfigError = some e) :
    gpioTouched (Hardware.init p).2 = false ∧
      PeripheralId.PA5 ∉ touchedPeripherals (Hardware.init p).2 := by
  constructor
  · simp [Hardware.init, UartTx.new, h, gpioTouched]
  · simp [Hardware.init, UartTx.new, h, touchedPeripherals, Action.touched]

/-- Witness for C9 at a concrete rejected token. -/
theorem init_failure_gpio_untouched_witness :
    gpioTouched (Hardware.init { uartConfigError := some ConfigError.baudrateTooLow }).2 =
        false ∧
      PeripheralId.PA5 ∉
        touchedPeripherals
          (Hardware.init { uartConfigError := some ConfigError.baudrateTooLow }).2 :=
  init_failure_gpio_untouched { uartConfigError := some ConfigError.baudrateTooLow }
    ConfigError.baudrateTooLow rfl

/-- C10: a successful `Hardware::init` takes exactly three elements
out of the peripheral token — USART2, PA2 and PA5, in that order — and
configures no other peripheral; every other peripheral of the token is
left untouched. -/
theorem init_touches_exactly_three (p : Peripherals) (hw : Hardware)
    (h : (Hardware.init p).1 = Except.ok hw) :
    touchedPeripherals (Hardware.init p).2 =
      [PeripheralId.USART2, PeripheralId.PA2, PeripheralId.PA5] := by
  cases hp : p.uartConfigError with
  | some e => simp [Hardware.init, UartTx.new, hp] at h
  | none => simp [Hardware.init, UartTx.new, hp, touchedPeripherals, Action.touched]

/-- Witness for C10 at a concrete accepted token. -/
theorem init_touches_exactly_three_witness :
    touchedPeripherals (Hardware.init { uartConfigError := none }).2 =
      [PeripheralId.USART2, PeripheralId.PA2, PeripheralId.PA5] :=
  init_touches_exactly_three { uartConfigError := none } configuredBundle rfl

end Stm32Blink
